import Mathlib

/-!
Verification of the SMAD Mission Design Evaluation Engine
(`newmodel/smad_data_model.py`).

The Python dataclasses are shallowly embedded as Lean structures; Python
floats are modelled as exact rationals (`ℚ`) except where `math.sqrt` /
`math.pi` force real numbers (`ℝ`); Python `dict`s keyed by id are
modelled as association lists with replace-on-existing-key insertion
(Python dicts preserve insertion order and keep the original position on
key overwrite); methods that mutate `self` are modelled as functions
returning the updated record; `raise ValueError` is modelled with
`Except String`.  Fields irrelevant to any verified property (free-text
notes, `datetime` stamps, units on records whose behaviour never reads
them) are omitted or kept as plain strings.
-/

/-- Embeds the `ComparisonOperator` enum (`smad_data_model.py:19`). -/
inductive ComparisonOperator where
  | LESS_THAN
  | LESS_THAN_OR_EQUAL
  | EQUAL
  | GREATER_THAN_OR_EQUAL
  | GREATER_THAN
  | BETWEEN
  | NOT_EQUAL
deriving DecidableEq, Repr

/-- The `.value` string of each `ComparisonOperator` member. -/
def ComparisonOperator.symbol : ComparisonOperator → String
  | .LESS_THAN => "<"
  | .LESS_THAN_OR_EQUAL => "<="
  | .EQUAL => "=="
  | .GREATER_THAN_OR_EQUAL => ">="
  | .GREATER_THAN => ">"
  | .BETWEEN => "between"
  | .NOT_EQUAL => "!="

/-- Embeds the `ObjectiveStatus` enum (`smad_data_model.py:121`). -/
inductive ObjectiveStatus where
  | NOT_EVALUATED
  | BELOW_THRESHOLD
  | THRESHOLD_MET
  | BASELINE_MET
  | TARGET_MET
  | EXCEEDED
deriving DecidableEq, Repr

/-- Embeds the `SolutionStatus` enum (`smad_data_model.py:143`). -/
inductive SolutionStatus where
  | PROPOSED
  | UNDER_EVALUATION
  | REQUIREMENTS_MET
  | REQUIREMENTS_NOT_MET
  | SELECTED
  | REJECTED
deriving DecidableEq, Repr

/-- Embeds the `NumericConstraintValue` dataclass (`smad_data_model.py:387`).
The `unit` field is kept as its `.value` string; it plays no role in
`__post_init__` or `evaluate`. -/
structure NumericConstraintValue where
  operator : ComparisonOperator
  value : Option ℚ := none
  min_value : Option ℚ := none
  max_value : Option ℚ := none
  unit : String := ""
deriving DecidableEq, Repr

/-- Embeds `NumericConstraintValue.__post_init__` (`smad_data_model.py:396`):
`raise ValueError` becomes `Except.error`; a passing check returns the
object unchanged. -/
def NumericConstraintValue.postInit (c : NumericConstraintValue) :
    Except String NumericConstraintValue :=
  if c.operator = ComparisonOperator.BETWEEN then
    match c.min_value, c.max_value with
    | some mn, some mx =>
        if mn ≥ mx then Except.error "min_value must be < max_value"
        else Except.ok c
    | _, _ => Except.error "BETWEEN requires min_value and max_value"
  else
    match c.value with
    | none => Except.error (c.operator.symbol ++ " requires a value")
    | some _ => Except.ok c

/-- Embeds `NumericConstraintValue.evaluate` (`smad_data_model.py:406`).
Python comparison of a float with `None` raises `TypeError` (modelled as
`none`), but `==`/`!=` against `None` yield `False`/`True`; both only
matter for objects that escaped `__post_init__`, which cannot happen. -/
def NumericConstraintValue.evaluate (c : NumericConstraintValue) (test_value : ℚ) :
    Option Bool :=
  match c.operator with
  | .LESS_THAN => c.value.map fun v => decide (test_value < v)
  | .LESS_THAN_OR_EQUAL => c.value.map fun v => decide (test_value ≤ v)
  | .EQUAL =>
      some (match c.value with
            | some v => decide (test_value = v)
            | none => false)
  | .GREATER_THAN_OR_EQUAL => c.value.map fun v => decide (test_value ≥ v)
  | .GREATER_THAN => c.value.map fun v => decide (test_value > v)
  | .BETWEEN =>
      match c.min_value, c.max_value with
      | some mn, some mx => some (decide (mn ≤ test_value) && decide (test_value ≤ mx))
      | _, _ => none
  | .NOT_EQUAL =>
      some (match c.value with
            | some v => decide (test_value ≠ v)
            | none => true)

/-- The comparator the spec prescribes for each operator, read off the
spec's words ("x < value, x <= value, ..., min_value <= x <= max_value");
compared against `NumericConstraintValue.evaluate` from the source. -/
def specComparator (c : NumericConstraintValue) (x : ℚ) : Bool :=
  match c.operator with
  | .LESS_THAN => decide (x < c.value.getD 0)
  | .LESS_THAN_OR_EQUAL => decide (x ≤ c.value.getD 0)
  | .EQUAL => decide (x = c.value.getD 0)
  | .GREATER_THAN_OR_EQUAL => decide (x ≥ c.value.getD 0)
  | .GREATER_THAN => decide (x > c.value.getD 0)
  | .BETWEEN => decide (c.min_value.getD 0 ≤ x) && decide (x ≤ c.max_value.getD 0)
  | .NOT_EQUAL => decide (x ≠ c.value.getD 0)

/-- The operator/value shapes `__post_init__` rejects: `between` with a
missing bound, `between` with `min_value >= max_value`, any other
operator with a missing `value`. -/
def NumericConstraintValue.malformedShape (c : NumericConstraintValue) : Prop :=
  (c.operator = ComparisonOperator.BETWEEN ∧
     (c.min_value = none ∨ c.max_value = none)) ∨
  (c.operator = ComparisonOperator.BETWEEN ∧
     ∃ mn mx, c.min_value = some mn ∧ c.max_value = some mx ∧ mn ≥ mx) ∨
  (c.operator ≠ ComparisonOperator.BETWEEN ∧ c.value = none)

/-- C5: for every successfully constructed NumericConstraintValue and every
test value `x`, `evaluate x` returns exactly the comparator result of its
operator (single-value operators compare `x` against `value`; `between`
checks `min_value ≤ x ≤ max_value`); being a pure function of the record
and `x`, it has no side effects. -/
theorem evaluate_matches_comparator (c : NumericConstraintValue) (x : ℚ)
    (h : c.postInit = Except.ok c) :
    c.evaluate x = some (specComparator c x) := by
  rcases c with ⟨op, v, mn, mx, u⟩
  cases op <;>
    simp only [NumericConstraintValue.postInit, NumericConstraintValue.evaluate,
      specComparator, reduceCtorEq, if_true, if_false, reduceIte] at h ⊢ <;>
    first
      | (cases v with
         | none => simp at h
         | some v0 => simp)
      | (cases mn with
         | none => simp at h
         | some mn0 =>
             cases mx with
             | none => simp at h
             | some mx0 => simp)

/-- Witness for `evaluate_matches_comparator` at the concrete constraint
`< 5` tested against `3`. -/
theorem evaluate_matches_comparator_witness :
    NumericConstraintValue.evaluate
        { operator := ComparisonOperator.LESS_THAN, value := some 5 } 3 =
      some (specComparator
        { operator := ComparisonOperator.LESS_THAN, value := some 5 } 3) :=
  evaluate_matches_comparator
    { operator := ComparisonOperator.LESS_THAN, value := some 5 } 3 (by rfl)

/-- C6: constructing a NumericConstraintValue fails exactly when the
operator/value shape is malformed (`between` with a missing bound,
`between` with `min_value >= max_value`, any other operator with `value`
missing); otherwise construction succeeds and yields the object itself.
Failure is a synchronous `Except.error`, so no object is produced. -/
theorem postInit_fails_iff_malformed (c : NumericConstraintValue) :
    (c.postInit = Except.ok c ↔ ¬ c.malformedShape) ∧
    (c.malformedShape → ∃ msg, c.postInit = Except.error msg) := by
  rcases c with ⟨op, v, mn, mx, u⟩
  by_cases hop : op = ComparisonOperator.BETWEEN
  · subst hop
    cases mn with
    | none =>
        simp [NumericConstraintValue.postInit, NumericConstraintValue.malformedShape]
    | some mn0 =>
        cases mx with
        | none =>
            simp [NumericConstraintValue.postInit, NumericConstraintValue.malformedShape]
        | some mx0 =>
            by_cases hge : mn0 ≥ mx0 <;>
              simp [NumericConstraintValue.postInit,
                NumericConstraintValue.malformedShape, hge]
  · cases v with
    | none =>
        simp [NumericConstraintValue.postInit, NumericConstraintValue.malformedShape, hop]
    | some v0 =>
        simp [NumericConstraintValue.postInit, NumericConstraintValue.malformedShape, hop]

/-- Witness for `postInit_fails_iff_malformed`: a `between` constraint with
`min_value = 4 ≥ max_value = 2` is rejected with an error. -/
theorem postInit_fails_iff_malformed_witness :
    ∃ msg,
      NumericConstraintValue.postInit
          { operator := ComparisonOperator.BETWEEN,
            min_value := some 4, max_value := some 2 } =
        Except.error msg :=
  (postInit_fails_iff_malformed
      { operator := ComparisonOperator.BETWEEN,
        min_value := some 4, max_value := some 2 }).2
    (Or.inr (Or.inl ⟨rfl, 4, 2, rfl, rfl, by norm_num⟩))

/-- Embeds the `PerformanceThreshold` dataclass (`smad_data_model.py:712`):
a named tier (`"threshold"`, `"baseline"`, `"target"`) with a single
value and its own operator. -/
structure PerformanceThreshold where
  level : String
  value : ℚ
  unit : String := ""
  operator : ComparisonOperator
  description : String := ""
deriving DecidableEq, Repr

/-- Embeds `PerformanceThreshold.evaluate` (`smad_data_model.py:721`).
The `elif` chain has no `BETWEEN` arm, so that operator falls through to
the final `return False`. -/
def PerformanceThreshold.evaluate (t : PerformanceThreshold) (actual_value : ℚ) : Bool :=
  match t.operator with
  | .LESS_THAN => decide (actual_value < t.value)
  | .LESS_THAN_OR_EQUAL => decide (actual_value ≤ t.value)
  | .EQUAL => decide (actual_value = t.value)
  | .GREATER_THAN_OR_EQUAL => decide (actual_value ≥ t.value)
  | .GREATER_THAN => decide (actual_value > t.value)
  | .NOT_EQUAL => decide (actual_value ≠ t.value)
  | .BETWEEN => false

/-- Embeds the `KeyPerformanceIndicator` dataclass (`smad_data_model.py:739`),
keeping the fields `evaluate_performance`, `get_threshold` and the
objective aggregation read: the tier list, the cached current value and
the cached status. -/
structure KeyPerformanceIndicator where
  id : String
  name : String := ""
  thresholds : List PerformanceThreshold := []
  current_value : Option ℚ := none
  status : ObjectiveStatus := ObjectiveStatus.NOT_EVALUATED
deriving DecidableEq, Repr

/-- Python `str.lower()` per character, written by structural recursion so
that the kernel can evaluate it. -/
def lowerChars : List Char → List Char
  | [] => []
  | c :: cs => c.toLower :: lowerChars cs

/-- Python `str.lower()` on a whole string. -/
def strLower (s : String) : String := ⟨lowerChars s.data⟩

/-- Embeds `KeyPerformanceIndicator.get_threshold` (`smad_data_model.py:758`):
first tier whose `level` matches case-insensitively, else `None`. -/
def KeyPerformanceIndicator.get_threshold (k : KeyPerformanceIndicator)
    (level : String) : Option PerformanceThreshold :=
  k.thresholds.find? fun t => strLower t.level == strLower level

/-- Truthiness test `if tier and tier.evaluate(actual)` from
`evaluate_performance`: a missing (`None`) tier is skipped. -/
def tierHolds (t : Option PerformanceThreshold) (x : ℚ) : Bool :=
  match t with
  | none => false
  | some t0 => t0.evaluate x

/-- The status `KeyPerformanceIndicator.evaluate_performance`
(`smad_data_model.py:764`) computes: tiers checked in the order
target, baseline, threshold; first match wins; else `below_threshold`. -/
def performanceStatus (k : KeyPerformanceIndicator) (actual_value : ℚ) : ObjectiveStatus :=
  if tierHolds (k.get_threshold "target") actual_value then ObjectiveStatus.TARGET_MET
  else if tierHolds (k.get_threshold "baseline") actual_value then ObjectiveStatus.BASELINE_MET
  else if tierHolds (k.get_threshold "threshold") actual_value then ObjectiveStatus.THRESHOLD_MET
  else ObjectiveStatus.BELOW_THRESHOLD

/-- Embeds `KeyPerformanceIndicator.evaluate_performance`
(`smad_data_model.py:764`) as a whole: it caches `current_value` and the
computed status on the object and returns that status (here: the updated
object, whose `.status` is the returned value). -/
def KeyPerformanceIndicator.evaluate_performance (k : KeyPerformanceIndicator)
    (actual_value : ℚ) : KeyPerformanceIndicator :=
  { k with current_value := some actual_value, status := performanceStatus k actual_value }

/-- The KPI of the spec's worked tiering example: target `<= 10`,
baseline `<= 15`, threshold `<= 30`, all in meters. -/
def exampleTieredKpi : KeyPerformanceIndicator :=
  { id := "KPI-EX"
    thresholds :=
      [ { level := "target", value := 10, unit := "m",
          operator := ComparisonOperator.LESS_THAN_OR_EQUAL }
      , { level := "baseline", value := 15, unit := "m",
          operator := ComparisonOperator.LESS_THAN_OR_EQUAL }
      , { level := "threshold", value := 30, unit := "m",
          operator := ComparisonOperator.LESS_THAN_OR_EQUAL } ] }

/-- C3: `evaluate_performance` checks the tiers in strict priority order
target, baseline, threshold and returns the status of the first tier
whose own operator/value evaluates true (`target_met`, `baseline_met`,
`threshold_met`); a tier the KPI does not define is skipped (absent, not
auto-fail: `tierHolds none x = false`); when no defined tier matches the
result is `below_threshold`.  The spec's worked example (tiers
`<=10`/`<=15`/`<=30`) behaves as stated at 8, 13, 25 and 40. -/
theorem evaluate_performance_tier_priority :
    (∀ (k : KeyPerformanceIndicator) (x : ℚ),
      ((k.evaluate_performance x).status = performanceStatus k x) ∧
      (performanceStatus k x = ObjectiveStatus.TARGET_MET ↔
        tierHolds (k.get_threshold "target") x = true) ∧
      (performanceStatus k x = ObjectiveStatus.BASELINE_MET ↔
        (tierHolds (k.get_threshold "target") x = false ∧
         tierHolds (k.get_threshold "baseline") x = true)) ∧
      (performanceStatus k x = ObjectiveStatus.THRESHOLD_MET ↔
        (tierHolds (k.get_threshold "target") x = false ∧
         tierHolds (k.get_threshold "baseline") x = false ∧
         tierHolds (k.get_threshold "threshold") x = true)) ∧
      (performanceStatus k x = ObjectiveStatus.BELOW_THRESHOLD ↔
        (tierHolds (k.get_threshold "target") x = false ∧
         tierHolds (k.get_threshold "baseline") x = false ∧
         tierHolds (k.get_threshold "threshold") x = false))) ∧
    (∀ x : ℚ, tierHolds none x = false) ∧
    (performanceStatus exampleTieredKpi 8 = ObjectiveStatus.TARGET_MET ∧
     performanceStatus exampleTieredKpi 13 = ObjectiveStatus.BASELINE_MET ∧
     performanceStatus exampleTieredKpi 25 = ObjectiveStatus.THRESHOLD_MET ∧
     performanceStatus exampleTieredKpi 40 = ObjectiveStatus.BELOW_THRESHOLD) := by
  refine ⟨fun k x => ?_, fun x => rfl, by decide⟩
  cases h1 : tierHolds (k.get_threshold "target") x <;>
    cases h2 : tierHolds (k.get_threshold "baseline") x <;>
      cases h3 : tierHolds (k.get_threshold "threshold") x <;>
        simp [KeyPerformanceIndicator.evaluate_performance, performanceStatus, h1, h2, h3]

/-- C10: a `PerformanceThreshold` whose operator is `between` evaluates
false for every actual value (`evaluate` has no `between` branch), and
therefore a tier configured with `between` can never be the one satisfied
by `evaluate_performance`: the corresponding tier status is unreachable. -/
theorem between_threshold_never_satisfied :
    (∀ (t : PerformanceThreshold) (x : ℚ),
      t.operator = ComparisonOperator.BETWEEN → t.evaluate x = false) ∧
    (∀ (k : KeyPerformanceIndicator) (x : ℚ) (t : PerformanceThreshold),
      k.get_threshold "target" = some t → t.operator = ComparisonOperator.BETWEEN →
        performanceStatus k x ≠ ObjectiveStatus.TARGET_MET) ∧
    (∀ (k : KeyPerformanceIndicator) (x : ℚ) (t : PerformanceThreshold),
      k.get_threshold "baseline" = some t → t.operator = ComparisonOperator.BETWEEN →
        performanceStatus k x ≠ ObjectiveStatus.BASELINE_MET) ∧
    (∀ (k : KeyPerformanceIndicator) (x : ℚ) (t : PerformanceThreshold),
      k.get_threshold "threshold" = some t → t.operator = ComparisonOperator.BETWEEN →
        performanceStatus k x ≠ ObjectiveStatus.THRESHOLD_MET) := by
  have hev : ∀ (t : PerformanceThreshold) (x : ℚ),
      t.operator = ComparisonOperator.BETWEEN → t.evaluate x = false := by
    intro t x ht
    simp [PerformanceThreshold.evaluate, ht]
  refine ⟨hev, ?_, ?_, ?_⟩
  · intro k x t hget ht
    have h1 : tierHolds (k.get_threshold "target") x = false := by
      rw [hget]; exact hev t x ht
    simp [performanceStatus, h1]
    intro hcon
    cases hb : tierHolds (k.get_threshold "baseline") x <;>
      cases hth : tierHolds (k.get_threshold "threshold") x <;>
        simp [hb, hth] at hcon
  · intro k x t hget ht
    have h2 : tierHolds (k.get_threshold "baseline") x = false := by
      rw [hget]; exact hev t x ht
    cases h1 : tierHolds (k.get_threshold "target") x <;>
      cases hth : tierHolds (k.get_threshold "threshold") x <;>
        simp [performanceStatus, h1, h2, hth]
  · intro k x t hget ht
    have h3 : tierHolds (k.get_threshold "threshold") x = false := by
      rw [hget]; exact hev t x ht
    cases h1 : tierHolds (k.get_threshold "target") x <;>
      cases h2 : tierHolds (k.get_threshold "baseline") x <;>
        simp [performanceStatus, h1, h2, h3]

/-- A KPI whose single `target` tier uses the `between` operator; used to
witness `between_threshold_never_satisfied`. -/
def betweenTierKpi : KeyPerformanceIndicator :=
  { id := "KPI-BETWEEN"
    thresholds :=
      [ { level := "target", value := 10,
          operator := ComparisonOperator.BETWEEN } ] }

/-- Witness for `between_threshold_never_satisfied` at a concrete
`between` tier and a concrete KPI. -/
theorem between_threshold_never_satisfied_witness :
    ({ level := "target", value := 10,
       operator := ComparisonOperator.BETWEEN : PerformanceThreshold }.evaluate 10
        = false) ∧
    performanceStatus betweenTierKpi 10 ≠ ObjectiveStatus.TARGET_MET :=
  ⟨between_threshold_never_satisfied.1 _ 10 rfl,
   between_threshold_never_satisfied.2.1 betweenTierKpi 10
     { level := "target", value := 10, operator := ComparisonOperator.BETWEEN }
     (by decide) rfl⟩

/-- Embeds the `status_values` rank dictionary used by both
`QuantitativeObjective.evaluate_objective` (`smad_data_model.py:833`) and
`MissionObjective.evaluate_objective` (`smad_data_model.py:876`):
`exceeded 5, target_met 4, baseline_met 3, threshold_met 2,
below_threshold 1, not_evaluated 0` (the Python `.get(status, 0)` default
is unreachable because every member is listed). -/
def statusValue : ObjectiveStatus → Nat
  | .EXCEEDED => 5
  | .TARGET_MET => 4
  | .BASELINE_MET => 3
  | .THRESHOLD_MET => 2
  | .BELOW_THRESHOLD => 1
  | .NOT_EVALUATED => 0

/-- One step of the minimum-search loop in `evaluate_objective`: the
accumulator is `(min_value, min_status)` and is replaced when a strictly
smaller rank is seen. -/
def minStep (p : Nat × ObjectiveStatus) (s : ObjectiveStatus) : Nat × ObjectiveStatus :=
  if statusValue s < p.1 then (statusValue s, s) else p

/-- The whole loop of `evaluate_objective`, started like the source at
`min_value = 6`, `min_status = EXCEEDED`. -/
def minStatusFold (l : List ObjectiveStatus) : Nat × ObjectiveStatus :=
  l.foldl minStep (6, ObjectiveStatus.EXCEEDED)

/-- Embeds the `QuantitativeObjective` dataclass (`smad_data_model.py:811`),
keeping the fields its `evaluate_objective` reads. -/
structure QuantitativeObjective where
  id : String
  title : String := ""
  kpis : List KeyPerformanceIndicator := []
deriving DecidableEq, Repr

/-- Embeds `QuantitativeObjective.evaluate_objective`
(`smad_data_model.py:833`): `NOT_EVALUATED` for an empty KPI list, else
the minimum-rank search over the KPIs' cached statuses. -/
def QuantitativeObjective.evaluate_objective (qo : QuantitativeObjective) : ObjectiveStatus :=
  if qo.kpis = [] then ObjectiveStatus.NOT_EVALUATED
  else (minStatusFold (qo.kpis.map (fun k => k.status))).2

/-- Embeds the `MissionObjective` dataclass (`smad_data_model.py:854`),
keeping the fields its `evaluate_objective` reads. -/
structure MissionObjective where
  id : String
  title : String := ""
  quantitative_objectives : List QuantitativeObjective := []
deriving DecidableEq, Repr

/-- Embeds `MissionObjective.evaluate_objective` (`smad_data_model.py:876`):
the same minimum-rank search over the children's freshly computed
`evaluate_objective` results. -/
def MissionObjective.evaluate_objective (mo : MissionObjective) : ObjectiveStatus :=
  if mo.quantitative_objectives = [] then ObjectiveStatus.NOT_EVALUATED
  else (minStatusFold (mo.quantitative_objectives.map
          (fun qo => qo.evaluate_objective))).2

theorem statusValue_le_five (s : ObjectiveStatus) : statusValue s ≤ 5 := by
  cases s <;> simp [statusValue]

theorem minStep_fold_spec (l : List ObjectiveStatus) (mv : Nat) (ms : ObjectiveStatus) :
    (l.foldl minStep (mv, ms) = (mv, ms) ∨
      ((l.foldl minStep (mv, ms)).2 ∈ l ∧
       (l.foldl minStep (mv, ms)).1 = statusValue (l.foldl minStep (mv, ms)).2)) ∧
    (l.foldl minStep (mv, ms)).1 ≤ mv ∧
    ∀ s ∈ l, (l.foldl minStep (mv, ms)).1 ≤ statusValue s := by
  induction l generalizing mv ms with
  | nil => simp
  | cons a t ih =>
    simp only [List.foldl_cons]
    by_cases h : statusValue a < mv
    · have hstep : minStep (mv, ms) a = (statusValue a, a) := by
        simp [minStep, h]
      rw [hstep]
      obtain ⟨h1, h2, h3⟩ := ih (statusValue a) a
      refine ⟨?_, le_trans h2 (le_of_lt h), ?_⟩
      · rcases h1 with h1 | ⟨hmem, heq⟩
        · right
          rw [h1]
          exact ⟨List.mem_cons_self a t, rfl⟩
        · exact Or.inr ⟨List.mem_cons_of_mem a hmem, heq⟩
      · intro s hs
        rcases List.mem_cons.mp hs with rfl | hs
        · exact h2
        · exact h3 s hs
    · have hstep : minStep (mv, ms) a = (mv, ms) := by
        simp [minStep, h]
      rw [hstep]
      obtain ⟨h1, h2, h3⟩ := ih mv ms
      refine ⟨?_, h2, ?_⟩
      · rcases h1 with h1 | ⟨hmem, heq⟩
        · exact Or.inl h1
        · exact Or.inr ⟨List.mem_cons_of_mem a hmem, heq⟩
      · intro s hs
        rcases List.mem_cons.mp hs with rfl | hs
        · exact le_trans h2 (le_of_not_lt h)
        · exact h3 s hs

theorem minStatusFold_min (l : List ObjectiveStatus) (hl : l ≠ []) :
    (minStatusFold l).2 ∈ l ∧
    ∀ s ∈ l, statusValue (minStatusFold l).2 ≤ statusValue s := by
  obtain ⟨h1, _, h3⟩ := minStep_fold_spec l 6 ObjectiveStatus.EXCEEDED
  rcases h1 with h1 | ⟨hmem, heq⟩
  · exfalso
    obtain ⟨s0, hs0⟩ := List.exists_mem_of_ne_nil l hl
    have h6 : (l.foldl minStep (6, ObjectiveStatus.EXCEEDED)).1 = 6 := by
      rw [h1]
    have := h3 s0 hs0
    rw [h6] at this
    exact absurd (le_trans this (statusValue_le_five s0)) (by norm_num)
  · refine ⟨hmem, fun s hs => ?_⟩
    have h4 := h3 s hs
    show statusValue (l.foldl minStep (6, ObjectiveStatus.EXCEEDED)).2 ≤ statusValue s
    rw [← heq]
    exact h4

/-- A QuantitativeObjective holding one KPI whose cached status is still
the default `not_evaluated`. -/
def qoWithUnevaluatedKpi : QuantitativeObjective :=
  { id := "QO-NE", kpis := [{ id := "KPI-NE" }] }

/-- C4 counterexample: `not_evaluated` is NOT only returned when there are
no children — a QuantitativeObjective with one (not yet evaluated) KPI
has children, yet `evaluate_objective` returns `not_evaluated`, because
`not_evaluated` ranks 0 and is the minimum. -/
theorem evaluate_objective_not_evaluated_with_children :
    qoWithUnevaluatedKpi.kpis ≠ [] ∧
    qoWithUnevaluatedKpi.evaluate_objective = ObjectiveStatus.NOT_EVALUATED := by
  constructor
  · decide
  · rfl

/-- C4 (amended): `evaluate_objective` on a QuantitativeObjective (and on a
MissionObjective) returns the minimum-ranked status across its children
under the fixed rank order `not_evaluated(0) < below_threshold(1) <
threshold_met(2) < baseline_met(3) < target_met(4) < exceeded(5)`;
`not_evaluated` is returned when there are no children to aggregate, and
also whenever a child carries status `not_evaluated` (rank 0, hence the
minimum). -/
theorem evaluate_objective_min_rank :
    (statusValue ObjectiveStatus.NOT_EVALUATED = 0 ∧
     statusValue ObjectiveStatus.BELOW_THRESHOLD = 1 ∧
     statusValue ObjectiveStatus.THRESHOLD_MET = 2 ∧
     statusValue ObjectiveStatus.BASELINE_MET = 3 ∧
     statusValue ObjectiveStatus.TARGET_MET = 4 ∧
     statusValue ObjectiveStatus.EXCEEDED = 5) ∧
    (∀ qo : QuantitativeObjective,
      (qo.kpis = [] → qo.evaluate_objective = ObjectiveStatus.NOT_EVALUATED) ∧
      (qo.kpis ≠ [] →
        (∃ k ∈ qo.kpis, qo.evaluate_objective = k.status) ∧
        ∀ k ∈ qo.kpis, statusValue qo.evaluate_objective ≤ statusValue k.status)) ∧
    (∀ mo : MissionObjective,
      (mo.quantitative_objectives = [] →
        mo.evaluate_objective = ObjectiveStatus.NOT_EVALUATED) ∧
      (mo.quantitative_objectives ≠ [] →
        (∃ qo ∈ mo.quantitative_objectives,
          mo.evaluate_objective = qo.evaluate_objective) ∧
        ∀ qo ∈ mo.quantitative_objectives,
          statusValue mo.evaluate_objective ≤
            statusValue qo.evaluate_objective)) := by
  refine ⟨⟨rfl, rfl, rfl, rfl, rfl, rfl⟩, fun qo => ⟨?_, ?_⟩, fun mo => ⟨?_, ?_⟩⟩
  · intro h
    simp [QuantitativeObjective.evaluate_objective, h]
  · intro h
    have hmap : qo.kpis.map (fun k => k.status) ≠ [] := by
      simpa using h
    obtain ⟨hmem, hmin⟩ := minStatusFold_min _ hmap
    have heval : qo.evaluate_objective =
        (minStatusFold (qo.kpis.map (fun k => k.status))).2 := by
      simp [QuantitativeObjective.evaluate_objective, h]
    constructor
    · obtain ⟨k, hk, hks⟩ := List.mem_map.mp hmem
      exact ⟨k, hk, by rw [heval, hks]⟩
    · intro k hk
      rw [heval]
      exact hmin _ (List.mem_map.mpr ⟨k, hk, rfl⟩)
  · intro h
    simp [MissionObjective.evaluate_objective, h]
  · intro h
    have hmap : mo.quantitative_objectives.map
        (fun qo => qo.evaluate_objective) ≠ [] := by
      simpa using h
    obtain ⟨hmem, hmin⟩ := minStatusFold_min _ hmap
    have heval : mo.evaluate_objective =
        (minStatusFold (mo.quantitative_objectives.map
          (fun qo => qo.evaluate_objective))).2 := by
      simp [MissionObjective.evaluate_objective, h]
    constructor
    · obtain ⟨qo, hq, hqs⟩ := List.mem_map.mp hmem
      exact ⟨qo, hq, by rw [heval, hqs]⟩
    · intro qo hq
      rw [heval]
      exact hmin _ (List.mem_map.mpr ⟨qo, hq, rfl⟩)

/-- A QuantitativeObjective with one target-met KPI and one
below-threshold KPI; pessimistic aggregation must pick the weaker one. -/
def mixedStatusQO : QuantitativeObjective :=
  { id := "QO-MIX"
    kpis :=
      [ { id := "KPI-A", status := ObjectiveStatus.TARGET_MET }
      , { id := "KPI-B", status := ObjectiveStatus.BELOW_THRESHOLD } ] }

/-- Witness for `evaluate_objective_min_rank` on a concrete two-KPI
objective. -/
theorem evaluate_objective_min_rank_witness :
    (∃ k ∈ mixedStatusQO.kpis, mixedStatusQO.evaluate_objective = k.status) ∧
    ∀ k ∈ mixedStatusQO.kpis,
      statusValue mixedStatusQO.evaluate_objective ≤ statusValue k.status :=
  (evaluate_objective_min_rank.2.1 mixedStatusQO).2 (by decide)

/-- Embeds the `KPIEvaluation` dataclass (`smad_data_model.py:1113`). -/
structure KPIEvaluation where
  kpi_id : String
  kpi_name : String := ""
  calculated_value : ℚ := 0
  unit : String := ""
  status : ObjectiveStatus := ObjectiveStatus.NOT_EVALUATED
  threshold_met : Bool
  baseline_met : Bool := false
  target_met : Bool := false
  notes : String := ""
deriving DecidableEq, Repr

/-- Embeds the `RequirementVerification` dataclass (`smad_data_model.py:1127`). -/
structure RequirementVerification where
  requirement_id : String
  requirement_title : String := ""
  required_value : String := ""
  calculated_value : ℚ := 0
  unit : String := ""
  verified : Bool
  margin : ℚ := 0
  notes : String := ""
deriving DecidableEq, Repr

/-- Embeds the `ConstraintVerification` dataclass (`smad_data_model.py:1140`). -/
structure ConstraintVerification where
  constraint_id : String
  constraint_title : String := ""
  constraint_value : String := ""
  calculated_value : ℚ := 0
  unit : String := ""
  verified : Bool
  margin : ℚ := 0
  is_negotiable : Bool
  notes : String := ""
deriving DecidableEq, Repr

/-- Python `dict[key] = x` on an id-keyed dict, viewed as its ordered value
list: overwriting an existing id keeps its position, a new id is appended. -/
def insertByKey (key : α → String) (x : α) : List α → List α
  | [] => [x]
  | y :: t => if key y == key x then x :: t else y :: insertByKey key x t

/-- Embeds the `SolutionEvaluation` dataclass (`smad_data_model.py:1165`);
the id-keyed dicts are modelled as their ordered value lists (each value
carries its own key), `evaluation_date` and the free-text summary fields
are omitted, and `fom_evaluations` (never read by any verified operation)
is left out. -/
structure SolutionEvaluation where
  id : String
  solution_id : String
  solution_label : String := ""
  kpi_evaluations : List KPIEvaluation := []
  requirement_verifications : List RequirementVerification := []
  constraint_verifications : List ConstraintVerification := []
  all_requirements_met : Bool := false
  all_critical_constraints_met : Bool := false
  overall_status : SolutionStatus := SolutionStatus.UNDER_EVALUATION
  kpi_success_rate : ℚ := 0
  requirement_success_rate : ℚ := 0
  constraint_success_rate : ℚ := 0
deriving DecidableEq, Repr

/-- Embeds `SolutionEvaluation.add_kpi_evaluation` (`smad_data_model.py:1201`). -/
def SolutionEvaluation.add_kpi_evaluation (ev : SolutionEvaluation)
    (k : KPIEvaluation) : SolutionEvaluation :=
  { ev with kpi_evaluations := insertByKey KPIEvaluation.kpi_id k ev.kpi_evaluations }

/-- Embeds `SolutionEvaluation.add_requirement_verification`
(`smad_data_model.py:1209`). -/
def SolutionEvaluation.add_requirement_verification (ev : SolutionEvaluation)
    (r : RequirementVerification) : SolutionEvaluation :=
  { ev with requirement_verifications :=
      insertByKey RequirementVerification.requirement_id r ev.requirement_verifications }

/-- Embeds `SolutionEvaluation.add_constraint_verification`
(`smad_data_model.py:1213`). -/
def SolutionEvaluation.add_constraint_verification (ev : SolutionEvaluation)
    (c : ConstraintVerification) : SolutionEvaluation :=
  { ev with constraint_verifications :=
      insertByKey ConstraintVerification.constraint_id c ev.constraint_verifications }

/-- Embeds `SolutionEvaluation.calculate_success_rates`
(`smad_data_model.py:1217`).  The Python method mutates `self` in three
sequential blocks; no block reads a field another block writes (each only
reads the verification lists), so the sequential mutation is written here
as one simultaneous record update.  A field is written only when its
guarding `if` fires, otherwise it keeps its previous value — in
particular `all_critical_constraints_met` is untouched when there is no
constraint verification or no non-negotiable one. -/
def SolutionEvaluation.calculate_success_rates (ev : SolutionEvaluation) :
    SolutionEvaluation :=
  let critical_constraints := ev.constraint_verifications.filter fun c => !c.is_negotiable
  { ev with
    kpi_success_rate :=
      if ev.kpi_evaluations ≠ [] then
        ((ev.kpi_evaluations.countP fun k => k.threshold_met : ℚ) /
          (ev.kpi_evaluations.length : ℚ)) * 100
      else ev.kpi_success_rate
    requirement_success_rate :=
      if ev.requirement_verifications ≠ [] then
        ((ev.requirement_verifications.countP fun r => r.verified : ℚ) /
          (ev.requirement_verifications.length : ℚ)) * 100
      else ev.requirement_success_rate
    all_requirements_met :=
      if ev.requirement_verifications ≠ [] then
        decide ((ev.requirement_verifications.countP fun r => r.verified) =
          ev.requirement_verifications.length)
      else ev.all_requirements_met
    constraint_success_rate :=
      if ev.constraint_verifications ≠ [] then
        ((ev.constraint_verifications.countP fun c => c.verified : ℚ) /
          (ev.constraint_verifications.length : ℚ)) * 100
      else ev.constraint_success_rate
    all_critical_constraints_met :=
      if ev.constraint_verifications ≠ [] ∧ critical_constraints ≠ [] then
        decide ((critical_constraints.countP fun c => c.verified) =
          critical_constraints.length)
      else ev.all_critical_constraints_met }

/-- Embeds `SolutionEvaluation.determine_overall_status`
(`smad_data_model.py:1244`): recompute the rates, then set
`requirements_met` iff both met-flags hold, else `requirements_not_met`
(the `elif` condition is the exact negation of the `if`, so one of the
two branches always fires). -/
def SolutionEvaluation.determine_overall_status (ev : SolutionEvaluation) :
    SolutionEvaluation :=
  let ev1 := ev.calculate_success_rates
  if ev1.all_requirements_met && ev1.all_critical_constraints_met then
    { ev1 with overall_status := SolutionStatus.REQUIREMENTS_MET }
  else if !ev1.all_requirements_met || !ev1.all_critical_constraints_met then
    { ev1 with overall_status := SolutionStatus.REQUIREMENTS_NOT_MET }
  else ev1

theorem countP_lt_length_of_mem {α : Type} {l : List α} {p : α → Bool} {a : α}
    (ha : a ∈ l) (hpa : p a = false) : l.countP p < l.length := by
  refine lt_of_le_of_ne (List.countP_le_length p) fun heq => ?_
  have := List.countP_eq_length.mp heq a ha
  rw [hpa] at this
  exact Bool.false_ne_true this

theorem determine_overall_status_flags (ev : SolutionEvaluation) :
    (ev.determine_overall_status).all_requirements_met =
      (ev.calculate_success_rates).all_requirements_met ∧
    (ev.determine_overall_status).all_critical_constraints_met =
      (ev.calculate_success_rates).all_critical_constraints_met := by
  unfold SolutionEvaluation.determine_overall_status
  cases h1 : (ev.calculate_success_rates).all_requirements_met <;>
    cases h2 : (ev.calculate_success_rates).all_critical_constraints_met <;>
      simp [h1, h2]

theorem calculate_success_rates_critical_flag (ev : SolutionEvaluation) :
    (ev.calculate_success_rates).all_critical_constraints_met =
      (if ev.constraint_verifications ≠ [] ∧
          (ev.constraint_verifications.filter fun c => !c.is_negotiable) ≠ [] then
        decide (((ev.constraint_verifications.filter fun c => !c.is_negotiable).countP
            fun c => c.verified) =
          (ev.constraint_verifications.filter fun c => !c.is_negotiable).length)
      else ev.all_critical_constraints_met) := rfl

/-- C2 (amended): after `calculate_success_rates` (or
`determine_overall_status`) runs, `all_critical_constraints_met` is true
whenever the evaluation holds at least one non-negotiable constraint
verification and every non-negotiable one has verified true, regardless
of negotiable-constraint outcomes; in particular, with additionally one
failing negotiable constraint present, the flag is true even though
`constraint_success_rate < 100`.  (The amendment adds "at least one
non-negotiable": with none, the flag keeps its prior value instead.) -/
theorem all_critical_constraints_met_when_critical_pass (ev : SolutionEvaluation)
    (hcrit : ∃ c ∈ ev.constraint_verifications, c.is_negotiable = false)
    (hpass : ∀ c ∈ ev.constraint_verifications,
      c.is_negotiable = false → c.verified = true) :
    (ev.calculate_success_rates).all_critical_constraints_met = true ∧
    (ev.determine_overall_status).all_critical_constraints_met = true ∧
    ((∃ c ∈ ev.constraint_verifications, c.is_negotiable = true ∧ c.verified = false) →
      (ev.calculate_success_rates).constraint_success_rate < 100) := by
  obtain ⟨c0, hc0mem, hc0⟩ := hcrit
  have hlne : ev.constraint_verifications ≠ [] := List.ne_nil_of_mem hc0mem
  have hc0filter : c0 ∈ ev.constraint_verifications.filter fun c => !c.is_negotiable :=
    List.mem_filter.mpr ⟨hc0mem, by simp [hc0]⟩
  have hfne : (ev.constraint_verifications.filter fun c => !c.is_negotiable) ≠ [] :=
    List.ne_nil_of_mem hc0filter
  have hcount :
      ((ev.constraint_verifications.filter fun c => !c.is_negotiable).countP
          fun c => c.verified) =
        (ev.constraint_verifications.filter fun c => !c.is_negotiable).length := by
    refine List.countP_eq_length.mpr fun c hc => ?_
    obtain ⟨hcl, hcneg⟩ := List.mem_filter.mp hc
    have := hpass c hcl (by simpa using hcneg)
    simpa using this
  have hflag : (ev.calculate_success_rates).all_critical_constraints_met = true := by
    rw [calculate_success_rates_critical_flag, if_pos ⟨hlne, hfne⟩]
    simpa using hcount
  refine ⟨hflag, by rw [(determine_overall_status_flags ev).2]; exact hflag, ?_⟩
  rintro ⟨c1, hc1mem, hc1neg, hc1ver⟩
  have hlt : (ev.constraint_verifications.countP fun c => c.verified) <
      ev.constraint_verifications.length :=
    countP_lt_length_of_mem hc1mem (by simp [hc1ver])
  have hn : (0 : ℚ) < (ev.constraint_verifications.length : ℚ) := by
    exact_mod_cast List.length_pos.mpr hlne
  have hrate : (ev.calculate_success_rates).constraint_success_rate =
      ((ev.constraint_verifications.countP fun c => c.verified : ℚ) /
        (ev.constraint_verifications.length : ℚ)) * 100 := by
    show (if ev.constraint_verifications ≠ [] then _ else _) = _
    rw [if_pos hlne]
  rw [hrate]
  have hdiv : ((ev.constraint_verifications.countP fun c => c.verified : ℚ) /
      (ev.constraint_verifications.length : ℚ)) < 1 :=
    (div_lt_one hn).mpr (by exact_mod_cast hlt)
  nlinarith [hdiv]

/-- An evaluation holding one passing non-negotiable constraint and one
failing negotiable one. -/
def mixedConstraintEval : SolutionEvaluation :=
  { id := "EVAL-MIX", solution_id := "SOL-MIX"
    constraint_verifications :=
      [ { constraint_id := "CON-HARD", verified := true, is_negotiable := false }
      , { constraint_id := "CON-SOFT", verified := false, is_negotiable := true } ] }

/-- Witness for `all_critical_constraints_met_when_critical_pass` on a
concrete evaluation with one passing non-negotiable and one failing
negotiable constraint. -/
theorem all_critical_constraints_met_witness :
    (mixedConstraintEval.calculate_success_rates).all_critical_constraints_met = true ∧
    (mixedConstraintEval.determine_overall_status).all_critical_constraints_met = true ∧
    ((∃ c ∈ mixedConstraintEval.constraint_verifications,
        c.is_negotiable = true ∧ c.verified = false) →
      (mixedConstraintEval.calculate_success_rates).constraint_success_rate < 100) :=
  all_critical_constraints_met_when_critical_pass mixedConstraintEval
    (by decide) (by decide)

/-- An evaluation whose only constraint verification is negotiable (and
failing); it holds no non-negotiable verification at all. -/
def negotiableOnlyEval : SolutionEvaluation :=
  { id := "EVAL-NEG", solution_id := "SOL-NEG"
    requirement_verifications := [{ requirement_id := "REQ-1", verified := true }]
    constraint_verifications :=
      [ { constraint_id := "CON-SOFT", verified := false, is_negotiable := true } ] }

/-- C2 counterexample: on an evaluation holding only negotiable constraint
verifications, every non-negotiable verification it holds (vacuously) has
verified true, yet after `calculate_success_rates` the flag
`all_critical_constraints_met` is still false — the claim's universal
statement fails in the no-non-negotiable case (which claim C9 documents). -/
theorem all_critical_constraints_met_vacuous_counterexample :
    (∀ c ∈ negotiableOnlyEval.constraint_verifications,
      c.is_negotiable = false → c.verified = true) ∧
    (negotiableOnlyEval.calculate_success_rates).all_critical_constraints_met = false := by
  constructor
  · decide
  · rfl

/-- C9: if a SolutionEvaluation holds no constraint verifications, or only
negotiable ones, `calculate_success_rates` leaves
`all_critical_constraints_met` at its initial default `False`, and
`determine_overall_status` therefore sets `overall_status` to
`requirements_not_met` even when `all_requirements_met` is true. -/
theorem no_critical_constraints_means_not_met (ev : SolutionEvaluation)
    (hflag : ev.all_critical_constraints_met = false)
    (hneg : ∀ c ∈ ev.constraint_verifications, c.is_negotiable = true)
    (hreq : ev.requirement_verifications ≠ [])
    (hver : ∀ r ∈ ev.requirement_verifications, r.verified = true) :
    (ev.calculate_success_rates).all_critical_constraints_met = false ∧
    (ev.determine_overall_status).all_requirements_met = true ∧
    (ev.determine_overall_status).overall_status =
      SolutionStatus.REQUIREMENTS_NOT_MET := by
  have hfilter : (ev.constraint_verifications.filter fun c => !c.is_negotiable) = [] := by
    refine List.filter_eq_nil_iff.mpr fun c hc => ?_
    simp [hneg c hc]
  have hcflag : (ev.calculate_success_rates).all_critical_constraints_met = false := by
    rw [calculate_success_rates_critical_flag]
    rw [if_neg (by simp [hfilter])]
    exact hflag
  have hrflag : (ev.calculate_success_rates).all_requirements_met = true := by
    show (if ev.requirement_verifications ≠ [] then _ else _) = true
    rw [if_pos hreq]
    simpa using List.countP_eq_length.mpr fun r hr => by simp [hver r hr]
  refine ⟨hcflag, (determine_overall_status_flags ev).1.trans hrflag, ?_⟩
  unfold SolutionEvaluation.determine_overall_status
  simp [hcflag, hrflag]

/-- Witness for `no_critical_constraints_means_not_met` on a concrete
evaluation with one verified requirement and one (failing) negotiable
constraint. -/
theorem no_critical_constraints_means_not_met_witness :
    (negotiableOnlyEval.calculate_success_rates).all_critical_constraints_met = false ∧
    (negotiableOnlyEval.determine_overall_status).all_requirements_met = true ∧
    (negotiableOnlyEval.determine_overall_status).overall_status =
      SolutionStatus.REQUIREMENTS_NOT_MET :=
  no_critical_constraints_means_not_met negotiableOnlyEval
    rfl (by decide) (by decide) (by decide)

/-- Embeds the `DesignSolution` dataclass (`smad_data_model.py:1097`); the
spacecraft/orbit payload and timestamps are not read by the verified
mission operations and are omitted. -/
structure DesignSolution where
  id : String
  name : String := ""
  label : String := ""
  status : SolutionStatus := SolutionStatus.PROPOSED
  notes : String := ""
deriving DecidableEq, Repr

/-- Embeds the `Mission` dataclass (`smad_data_model.py:1301`), keeping the
fields `get_design_solution` / `evaluate_solution` read and write: the
solution list and the id-keyed evaluation map (as an ordered association
list).  Timestamps and the objective/requirement/constraint/iteration
lists play no part in the verified claims and are omitted. -/
structure Mission where
  id : String
  name : String := ""
  design_solutions : List DesignSolution := []
  solution_evaluations : List (String × SolutionEvaluation) := []
deriving DecidableEq, Repr

/-- Embeds `Mission.get_design_solution` (`smad_data_model.py:1342`): first
solution with the given id, else `None`. -/
def Mission.get_design_solution (m : Mission) (solution_id : String) :
    Option DesignSolution :=
  m.design_solutions.find? fun sol => sol.id == solution_id

/-- Lookup in the association-list model of a Python dict. -/
def dictLookup (k : String) (d : List (String × α)) : Option α :=
  (d.find? fun p => p.1 == k).map Prod.snd

/-- Python `dict[key] = value`: overwrite in place when the key exists,
append otherwise. -/
def dictInsert (k : String) (v : α) : List (String × α) → List (String × α)
  | [] => [(k, v)]
  | p :: t => if p.1 == k then (k, v) :: t else p :: dictInsert k v t

/-- Embeds `Mission.evaluate_solution` (`smad_data_model.py:1349`): unknown
id raises; otherwise a brand-new `SolutionEvaluation` (all dicts empty,
flags at their defaults) is built and stored under `solution.id`,
replacing whatever was there.  The eval id's timestamp suffix is not
modelled; the solution's `status` field is not touched by the source and
hence not here. -/
def Mission.evaluate_solution (m : Mission) (solution_id : String) :
    Except String (Mission × SolutionEvaluation) :=
  match m.get_design_solution solution_id with
  | none => Except.error ("Solution " ++ solution_id ++ " not found")
  | some sol =>
      let evaluation : SolutionEvaluation :=
        { id := "EVAL-" ++ solution_id
          solution_id := sol.id
          solution_label := sol.label }
      Except.ok
        ({ m with solution_evaluations :=
            dictInsert sol.id evaluation m.solution_evaluations }, evaluation)

theorem dictLookup_dictInsert_self (k : String) (v : α) (d : List (String × α)) :
    dictLookup k (dictInsert k v d) = some v := by
  induction d with
  | nil => simp [dictInsert, dictLookup]
  | cons p t ih =>
    by_cases h : p.1 == k
    · simp [dictInsert, dictLookup, h]
    · simpa [dictInsert, dictLookup, List.find?, h] using ih

theorem get_design_solution_id (m : Mission) (sid : String) (sol : DesignSolution)
    (h : m.get_design_solution sid = some sol) : sol.id = sid := by
  have := List.find?_some h
  simpa using this

/-- C1 (amended): `Mission.evaluate_solution` on a known solution id does
NOT transition the solution's status (a proposed solution stays
proposed; the source never writes `DesignSolution.status` there) — it
stores a fresh `SolutionEvaluation` under that id whose KPI-evaluation,
requirement-verification and constraint-verification maps are all empty
and whose own `overall_status` is `under_evaluation`; a second invocation
replaces the stored evaluation with such a fresh one, discarding prior
entries (full overwrite, not a merge). -/
theorem evaluate_solution_overwrites_without_transition (m : Mission)
    (sid : String) (sol : DesignSolution)
    (h : m.get_design_solution sid = some sol) :
    ∃ m' evaluation, m.evaluate_solution sid = Except.ok (m', evaluation) ∧
      m'.design_solutions = m.design_solutions ∧
      m'.get_design_solution sid = some sol ∧
      dictLookup sid m'.solution_evaluations = some evaluation ∧
      evaluation.kpi_evaluations = [] ∧
      evaluation.requirement_verifications = [] ∧
      evaluation.constraint_verifications = [] ∧
      evaluation.overall_status = SolutionStatus.UNDER_EVALUATION := by
  have hid : sol.id = sid := get_design_solution_id m sid sol h
  simp only [Mission.evaluate_solution, h]
  refine ⟨_, _, rfl, rfl, h, ?_, rfl, rfl, rfl, rfl⟩
  show dictLookup sid (dictInsert sol.id _ m.solution_evaluations) = _
  rw [hid, dictLookup_dictInsert_self]

/-- A mission with one proposed solution and a stale stored evaluation
holding one KPI entry and one constraint entry for that solution. -/
def staleEvalMission : Mission :=
  { id := "M-1"
    design_solutions := [{ id := "SOL-1", label := "Baseline" }]
    solution_evaluations :=
      [ ("SOL-1",
         { id := "EVAL-OLD", solution_id := "SOL-1"
           kpi_evaluations := [{ kpi_id := "KPI-1", threshold_met := true }]
           constraint_verifications :=
             [{ constraint_id := "CON-1", verified := true, is_negotiable := false }]
           all_requirements_met := true }) ] }

/-- C1 counterexample: on a mission whose solution `SOL-1` is in status
`proposed`, `evaluate_solution "SOL-1"` leaves that solution's status at
`proposed` — it is not transitioned to `under_evaluation` as the claim
states (no code path writes `DesignSolution.status` during evaluation). -/
theorem evaluate_solution_no_status_transition_counterexample :
    ((staleEvalMission.evaluate_solution "SOL-1").toOption.map
        fun p => (p.1.get_design_solution "SOL-1").map DesignSolution.status) =
      some (some SolutionStatus.PROPOSED) ∧
    SolutionStatus.PROPOSED ≠ SolutionStatus.UNDER_EVALUATION := by
  constructor
  · rfl
  · decide

/-- Witness for `evaluate_solution_overwrites_without_transition` on
`staleEvalMission`: the stale evaluation (with its KPI and constraint
entries) is replaced by a fresh empty one. -/
theorem evaluate_solution_overwrites_witness :
    ∃ m' evaluation,
      staleEvalMission.evaluate_solution "SOL-1" = Except.ok (m', evaluation) ∧
      m'.design_solutions = staleEvalMission.design_solutions ∧
      m'.get_design_solution "SOL-1" = some { id := "SOL-1", label := "Baseline" } ∧
      dictLookup "SOL-1" m'.solution_evaluations = some evaluation ∧
      evaluation.kpi_evaluations = [] ∧
      evaluation.requirement_verifications = [] ∧
      evaluation.constraint_verifications = [] ∧
      evaluation.overall_status = SolutionStatus.UNDER_EVALUATION :=
  evaluate_solution_overwrites_without_transition staleEvalMission "SOL-1"
    { id := "SOL-1", label := "Baseline" } (by rfl)

/-- Embeds the `Orbit` dataclass (`smad_data_model.py:260`) after
`__post_init__` ran: the Keplerian inputs are exact rationals; the two
fields computed with `math.pi`/`math.sqrt` are real numbers.  Identity
strings, angles, epoch and the optional mission-performance fields play
no part in `__post_init__`'s derivations and are omitted. -/
structure Orbit where
  semi_major_axis : ℚ
  eccentricity : ℚ
  altitude : Option ℚ
  perigee_altitude : Option ℚ
  apogee_altitude : Option ℚ
  orbital_period : ℝ
  mean_motion : ℝ

/-- Embeds `Orbit.__post_init__` (`smad_data_model.py:308`) as a
constructor from the caller-supplied fields (`eccentricity` defaults to
`0`, the three altitude fields to `None` in the dataclass): a circular
orbit (`eccentricity < 0.001`) whose altitude was not supplied gets
`semi_major_axis - EARTH_RADIUS`; an eccentric orbit (`eccentricity > 0`)
gets perigee/apogee altitudes; `orbital_period` (minutes) and
`mean_motion = 1440 / orbital_period` are always derived.  The two error
paths Python hits along the way are modelled with `Except`: for
`semi_major_axis < 0` the argument of `math.sqrt` is negative and the
period line raises `ValueError: math domain error`; for
`semi_major_axis = 0` the period is `0.0` and the mean-motion line
raises `ZeroDivisionError` — either way construction raises and the
caller gets no object. -/
noncomputable def Orbit.postInit (semi_major_axis eccentricity : ℚ)
    (altitude perigee_altitude apogee_altitude : Option ℚ) :
    Except String Orbit :=
  if semi_major_axis < 0 then Except.error "math domain error"
  else if semi_major_axis = 0 then Except.error "float division by zero"
  else
    let EARTH_RADIUS : ℚ := 6378.137
    let EARTH_MU : ℝ := 398600.4418
    let orbital_period : ℝ :=
      2 * Real.pi * Real.sqrt (((semi_major_axis : ℝ)) ^ 3 / EARTH_MU) / 60
    Except.ok
      { semi_major_axis := semi_major_axis
        eccentricity := eccentricity
        altitude :=
          if eccentricity < 0.001 ∧ altitude = none then
            some (semi_major_axis - EARTH_RADIUS)
          else altitude
        perigee_altitude :=
          if 0 < eccentricity then
            some (semi_major_axis * (1 - eccentricity) - EARTH_RADIUS)
          else perigee_altitude
        apogee_altitude :=
          if 0 < eccentricity then
            some (semi_major_axis * (1 + eccentricity) - EARTH_RADIUS)
          else apogee_altitude
        orbital_period := orbital_period
        mean_motion := 1440 / orbital_period }

/-- C7 (amended): for every Orbit whose construction succeeds
(`semi_major_axis > 0`; construction raises for `semi_major_axis ≤ 0`),
`__post_init__` deterministically populates
`orbital_period = 2π·sqrt(a³/398600.4418)/60` minutes and
`mean_motion = 1440/orbital_period` — for EVERY eccentricity and every
caller-supplied altitude — and, when the orbit is circular
(`eccentricity < 0.001`) and its altitude was NOT supplied by the
caller, `altitude = semi_major_axis − 6378.137` exactly (hence within
1e-9).  (The amendment adds the caller-did-not-supply-altitude
condition: a supplied altitude is kept as-is even in the circular
regime.) -/
theorem orbit_postInit_derived_fields (a e : ℚ) (alt pa aa : Option ℚ)
    (ha : 0 < a) :
    ∃ o : Orbit, Orbit.postInit a e alt pa aa = Except.ok o ∧
      o.orbital_period = 2 * Real.pi * Real.sqrt ((a : ℝ) ^ 3 / 398600.4418) / 60 ∧
      o.mean_motion = 1440 / o.orbital_period ∧
      (e < 0.001 → alt = none → o.altitude = some (a - 6378.137)) := by
  unfold Orbit.postInit
  rw [if_neg (not_lt.mpr ha.le), if_neg ha.ne']
  refine ⟨_, rfl, rfl, rfl, fun he halt => ?_⟩
  show (if e < 0.001 ∧ alt = none then some (a - (6378.137 : ℚ)) else alt) = _
  rw [if_pos ⟨he, halt⟩]

/-- Witness for `orbit_postInit_derived_fields` at the demo's circular
705 km orbit (`a = 6378.137 + 705 > 0`, `e = 0`, no caller altitude),
with the inner circularity and no-supplied-altitude hypotheses also
discharged. -/
theorem orbit_postInit_derived_fields_witness :
    ∃ o : Orbit, Orbit.postInit 7083.137 0 none none none = Except.ok o ∧
      o.orbital_period =
        2 * Real.pi * Real.sqrt ((7083.137 : ℝ) ^ 3 / 398600.4418) / 60 ∧
      o.mean_motion = 1440 / o.orbital_period ∧
      o.altitude = some (7083.137 - 6378.137) := by
  obtain ⟨o, h1, h2, h3, h4⟩ :=
    orbit_postInit_derived_fields 7083.137 0 none none none (by norm_num)
  exact ⟨o, h1, h2, h3, h4 (by norm_num) rfl⟩

/-- C7 counterexample: a circular orbit (`e = 0 < 0.001`) constructed with
a caller-supplied altitude of 500 km and `a = 7000` km keeps altitude
500, which misses `a − 6378.137 = 621.863` by far more than 1e-9 — the
back-computation only happens when `altitude is None`. -/
theorem orbit_altitude_caller_supplied_counterexample :
    (Orbit.postInit 7000 0 (some 500) none none).map Orbit.altitude =
      Except.ok (some 500) ∧
    (1e-9 : ℚ) < (7000 - 6378.137) - 500 := by
  constructor
  · unfold Orbit.postInit
    rw [if_neg (by norm_num : ¬ ((7000 : ℚ) < 0)),
        if_neg (by norm_num : ¬ ((7000 : ℚ) = 0))]
    show Except.ok (if (0 : ℚ) < 0.001 ∧ (some (500 : ℚ)) = none then _ else _) = _
    rw [if_neg (by simp)]
  · norm_num

/-- Embeds the `PayloadInstrument` component (`smad_data_model.py:540`),
keeping the optical fields `calculate_gsd_from_orbit` reads and writes. -/
structure PayloadInstrument where
  id : String
  name : String := ""
  focal_length : ℚ := 0
  pixel_pitch : ℚ := 0
  ground_sample_distance : ℚ := 0
deriving DecidableEq, Repr

/-- Embeds `PayloadInstrument.calculate_gsd_from_orbit`
(`smad_data_model.py:596`): when focal length and pixel pitch are
positive, compute `altitude_m · pixel_pitch_µm · 1e-6 / focal_length_m`
(which the source also stores back into `ground_sample_distance`);
otherwise the stored `ground_sample_distance` is returned unchanged. -/
def PayloadInstrument.calculate_gsd_from_orbit (p : PayloadInstrument)
    (altitude_km : ℚ) : ℚ :=
  if 0 < p.focal_length ∧ 0 < p.pixel_pitch then
    altitude_km * 1000 * p.pixel_pitch * (1e-6 : ℚ) / p.focal_length
  else p.ground_sample_distance

/-- The shipped demo's 15 m-class payload: `focal_length = 1.85` m,
`pixel_pitch = 13.0` µm (`test_model.py:158`). -/
def payload_15m : PayloadInstrument :=
  { id := "PL-15M", name := "Heritage 15m Imager"
    focal_length := 1.85, pixel_pitch := 13.0 }

/-- C8 (amended): for a payload with positive focal length and pixel
pitch, `calculate_gsd_from_orbit` computes exactly
`altitude_m · pixel_pitch_µm · 1e-6 / focal_length_m`; for the demo
payload (`focal_length = 1.85` m, `pixel_pitch = 13.0` µm) at altitude
705 km this is `1833/370 ≈ 4.95` m — NOT approximately 13.9 m. -/
theorem calculate_gsd_formula (p : PayloadInstrument) (altitude_km : ℚ)
    (hf : 0 < p.focal_length) (hp : 0 < p.pixel_pitch) :
    p.calculate_gsd_from_orbit altitude_km =
      altitude_km * 1000 * p.pixel_pitch * (1e-6 : ℚ) / p.focal_length ∧
    payload_15m.calculate_gsd_from_orbit 705 = 1833 / 370 ∧
    (4.95 : ℚ) < 1833 / 370 ∧ (1833 / 370 : ℚ) < 4.96 := by
  refine ⟨?_, ?_, by norm_num, by norm_num⟩
  · show (if 0 < p.focal_length ∧ 0 < p.pixel_pitch then _ else _) = _
    rw [if_pos ⟨hf, hp⟩]
  · norm_num [PayloadInstrument.calculate_gsd_from_orbit, payload_15m]

/-- Witness for `calculate_gsd_formula` at the demo payload and 705 km. -/
theorem calculate_gsd_formula_witness :
    payload_15m.calculate_gsd_from_orbit 705 =
      705 * 1000 * payload_15m.pixel_pitch * (1e-6 : ℚ) / payload_15m.focal_length ∧
    payload_15m.calculate_gsd_from_orbit 705 = 1833 / 370 ∧
    (4.95 : ℚ) < 1833 / 370 ∧ (1833 / 370 : ℚ) < 4.96 :=
  calculate_gsd_formula payload_15m 705 (by norm_num [payload_15m])
    (by norm_num [payload_15m])

/-- C8 counterexample: the demo payload at 705 km yields
`1833/370 ≈ 4.95` m, which differs from the claimed ≈13.9 m by more
than 8 m. -/
theorem calculate_gsd_not_13_9_counterexample :
    payload_15m.calculate_gsd_from_orbit 705 = 1833 / 370 ∧
    (8 : ℚ) < 13.9 - 1833 / 370 := by
  constructor
  · norm_num [PayloadInstrument.calculate_gsd_from_orbit, payload_15m]
  · norm_num
